import Mathlib

/-!
Shallow embedding of `src/google-dataflow_template.py` (herlangga72/bookstore).

The script is a two-stage batch pipeline:
  * `FetchGraphQLData.process` (lines 51-88): a `while True` loop that POSTs a
    paginated GraphQL query, breaks on a non-200 status (after printing a
    message), breaks on an empty extracted record list, yields one dict per
    item (raising `KeyError` if `nim` or `nama_program_studi` is missing),
    and advances the offset by the query limit.
  * `InsertToMySQL` (lines 90-133): a DoFn whose `start_bundle` opens an SSH
    tunnel and a MySQL connection, whose `process` runs one
    `INSERT IGNORE INTO students (nim, nama_program_studi)` per element
    followed by `conn.commit()`, and whose `finish_bundle` closes the cursor,
    the connection, and then stops the tunnel.
  * `run` (lines 135-168): wires the two stages; the Python process exits 0
    when the pipeline completes and non-zero only when an exception escapes.

Modelling conventions:
  * Python ints are `Int` (`offset`, `limit`) or `Nat` (HTTP status codes).
  * The HTTP endpoint is an oracle `Int → HttpResponse` mapping each requested
    offset to the response the server gives for it.
  * The response body, already parsed as JSON, is modelled only as deeply as
    the code inspects it: an optional top-level `data` field holding an
    optional inner `data` list, matching `data.get('data', {}).get('data', [])`.
  * The unbounded `while True` loop is modelled with explicit fuel; running
    out of fuel is the artifact status `outOfFuel`, distinct from every
    behaviour of the script.
  * The MySQL table `students` is a list of rows keyed by `nim` (the record's
    natural key); `INSERT IGNORE` is a no-op when the key is already present.
    A per-record failure oracle `fails : Record → Bool` models a statement
    (`cursor.execute`) raising, in which case the exception propagates out of
    `process` and, per Apache Beam's DoFn lifecycle, `finish_bundle` is not
    invoked for the failed bundle.
  * `runPipeline` composes the stages: the records yielded by the fetch loop
    are fed to one sink bundle; the process exit code is 0 when no exception
    escaped and 1 when one did (a `KeyError` in the fetch stage or a database
    error in the sink stage).
-/

namespace DataflowTemplate

/-- A record yielded by the fetch stage (line 86): both fields present. -/
structure Record where
  nim : String
  nama_program_studi : String
deriving DecidableEq, Repr

/-- One item of the GraphQL `data.data` list: a JSON object whose `nim` and
`nama_program_studi` keys may each be present or absent (`none`). -/
structure SourceItem where
  nim : Option String
  nama_program_studi : Option String
deriving DecidableEq, Repr

/-- The inner object under the top-level `data` key: its own `data` key may be
absent or hold a list of items. -/
structure GraphQLInner where
  dataList : Option (List SourceItem)
deriving DecidableEq, Repr

/-- The parsed JSON response body, modelled only as deeply as the script reads
it: an optional top-level `data` field. -/
structure GraphQLBody where
  dataField : Option GraphQLInner
deriving DecidableEq, Repr

/-- An HTTP response: status code plus parsed JSON body. -/
structure HttpResponse where
  status_code : Nat
  body : GraphQLBody
deriving DecidableEq, Repr

/-- Line 80: `result_data = data.get('data', {}).get('data', [])` — a missing
key at either level yields the empty list. -/
def resultData (b : GraphQLBody) : List SourceItem :=
  match b.dataField with
  | none => []
  | some inner => inner.dataList.getD []

/-- Line 86: building `{'nim': item['nim'], 'nama_program_studi': item['nama_program_studi']}`;
`none` means the subscript raises `KeyError` (Python evaluates `item['nim']` first). -/
def toRecord? (it : SourceItem) : Option Record :=
  match it.nim, it.nama_program_studi with
  | some n, some p => some ⟨n, p⟩
  | _, _ => none

/-- Lines 85-86: the `for item in result_data` loop. Returns the records
yielded in order and `true` when a `KeyError` was raised; records preceding
the offending item have already been yielded to the consumer (generator
semantics), and nothing after it is reached. -/
def processItems : List SourceItem → List Record × Bool
  | [] => ([], false)
  | it :: rest =>
    match toRecord? it with
    | none => ([], true)
    | some r =>
      let pe := processItems rest
      (r :: pe.1, pe.2)

/-- Line 76: the message printed on a non-200 response. -/
def failMsg (c : Nat) : String :=
  "Request failed with status code " ++ toString c

/-- How one iteration of the fetch loop ends. `done`: empty record list
(line 82 `break`); `httpFail`: non-200 status (line 75 `break`); `keyError`:
a `KeyError` escaped the generator; `outOfFuel` is the fuel artifact. -/
inductive LoopStatus where
  | done
  | httpFail (code : Nat)
  | keyError
  | outOfFuel
deriving DecidableEq, Repr

/-- Outcome of one iteration of the `while True` body: either the loop stops
(with the records yielded this iteration, the lines printed, and the reason),
or it yielded a full page and continues at the next offset. -/
inductive StepOut where
  | stop (yielded : List Record) (printed : List String) (st : LoopStatus)
  | next (yielded : List Record)
deriving DecidableEq, Repr

/-- Lines 71-86, one iteration: check the status code, extract `result_data`,
break on empty, yield the items (possibly raising `KeyError`), else continue. -/
def fetchStep (resp : HttpResponse) : StepOut :=
  if resp.status_code ≠ 200 then
    .stop [] [failMsg resp.status_code] (.httpFail resp.status_code)
  else if resultData resp.body = [] then
    .stop [] [] .done
  else if (processItems (resultData resp.body)).2 then
    .stop (processItems (resultData resp.body)).1 [] .keyError
  else
    .next (processItems (resultData resp.body)).1

/-- The lines the loop prints for a given ending: line 76 prints exactly one
message, only on the non-200 path; no other path prints anything. -/
def printedFor : LoopStatus → List String
  | .httpFail c => [failMsg c]
  | _ => []

/-- Everything observable about one run of the fetch loop: the records yielded
downstream (in order), the offsets actually requested (in order, one per POST),
the lines printed, and how the loop ended. -/
structure FetchResult where
  yielded : List Record
  offsets : List Int
  printed : List String
  status : LoopStatus
deriving DecidableEq, Repr

/-- Lines 71-88: the `while True` loop of `FetchGraphQLData.process`, with
fuel bounding the number of iterations. After a full page the offset advances
by the limit (line 88: `variables['offset'] += self.query_limit.get()`). -/
def fetchLoop (oracle : Int → HttpResponse) (limit : Int) : Nat → Int → FetchResult
  | 0, _ => ⟨[], [], [], .outOfFuel⟩
  | fuel + 1, offset =>
    match fetchStep (oracle offset) with
    | .stop ys pr st => ⟨ys, [offset], pr, st⟩
    | .next ys =>
      let r := fetchLoop oracle limit fuel (offset + limit)
      ⟨ys ++ r.yielded, offset :: r.offsets, r.printed, r.status⟩

/-- Lines 38-43: `INSERT IGNORE INTO students (nim, nama_program_studi)`.
Modelled from the spec for the part outside the script: the `students` table
schema is not in the repository; per the spec the table is keyed by the
record's natural identifier `nim`, so MySQL `INSERT IGNORE` appends the row
when the key is fresh and is a no-op when the key already exists. -/
def insertIgnore (table : List Record) (r : Record) : List Record :=
  if r.nim ∈ table.map Record.nim then table else table ++ [r]

/-- Folding `insertIgnore` over a list of records (the successive
`process` calls of the sink, each followed by `conn.commit()`). -/
def insertAll (table : List Record) (recs : List Record) : List Record :=
  recs.foldl insertIgnore table

/-- Resource events of `InsertToMySQL`: tunnel start and MySQL connect
(`start_bundle`, lines 104-120), and the three releases of `finish_bundle`
(lines 129-133) in source order. -/
inductive SinkEvent where
  | tunnelStart
  | connOpen
  | cursorClose
  | connClose
  | tunnelStop
deriving DecidableEq, Repr

/-- Outcome of one sink bundle: the committed table, the resource-event trace,
and whether an exception aborted the bundle. -/
structure SinkResult where
  table : List Record
  events : List SinkEvent
  aborted : Bool
deriving DecidableEq, Repr

/-- Lines 122-127 iterated over a bundle: each element is inserted and then
immediately committed (`self.conn.commit()` inside `process`). When
`cursor.execute` raises for an element (`fails r = true`), the pending insert
for that element is lost but every earlier commit is already durable, and the
exception aborts the bundle. -/
def sinkProcessAll (fails : Record → Bool) : List Record → List Record → List Record × Bool
  | table, [] => (table, false)
  | table, r :: rs =>
    if fails r then (table, true)
    else sinkProcessAll fails (insertIgnore table r) rs

/-- One bundle of `InsertToMySQL`: `start_bundle` acquires the lease, each
element is processed and committed, and `finish_bundle` (cursor close,
connection close, tunnel stop — in that source order, lines 131-133) runs only
when no `process` call raised: Beam does not invoke `finish_bundle` for a
bundle whose `process` raised, and the DoFn has no try/finally. -/
def runSinkBundle (fails : Record → Bool) (recs : List Record) (table₀ : List Record) : SinkResult :=
  let acquired : List SinkEvent := [.tunnelStart, .connOpen]
  let pr := sinkProcessAll fails table₀ recs
  if pr.2 then ⟨pr.1, acquired, true⟩
  else ⟨pr.1, acquired ++ [.cursorClose, .connClose, .tunnelStop], false⟩

/-- Everything observable about one invocation of the script. -/
structure RunResult where
  exitCode : Nat
  printed : List String
  table : List Record
  events : List SinkEvent
deriving DecidableEq, Repr

/-- Lines 135-168 plus the `__main__` guard: run the fetch loop from the
starting offset, feed every yielded record to one sink bundle, exit 0 when the
pipeline completed and 1 when an exception escaped (a `KeyError` in the fetch
stage or a database error in the sink stage). Nothing beyond the fetch loop's
own `print` is ever printed. -/
def runPipeline (oracle : Int → HttpResponse) (fails : Record → Bool)
    (limit : Int) (fuel : Nat) (start : Int) : RunResult :=
  let f := fetchLoop oracle limit fuel start
  let s := runSinkBundle fails f.yielded []
  let code : Nat := if f.status = LoopStatus.keyError ∨ s.aborted = true then 1 else 0
  ⟨code, f.printed, s.table, s.events⟩

/-! ## Basic lemmas about one iteration of the fetch loop -/

theorem fetchStep_of_non200 (resp : HttpResponse) (h : resp.status_code ≠ 200) :
    fetchStep resp = .stop [] [failMsg resp.status_code] (.httpFail resp.status_code) := by
  simp [fetchStep, h]

theorem fetchStep_of_empty (resp : HttpResponse) (h200 : resp.status_code = 200)
    (he : resultData resp.body = []) :
    fetchStep resp = .stop [] [] .done := by
  simp [fetchStep, h200, he]

theorem fetchStep_stop_printed (resp : HttpResponse) (ys : List Record)
    (pr : List String) (st : LoopStatus) (h : fetchStep resp = .stop ys pr st) :
    pr = printedFor st := by
  unfold fetchStep at h
  split at h
  · cases h; rfl
  · split at h
    · cases h; rfl
    · split at h
      · cases h; rfl
      · cases h

theorem fetchStep_stop_done_inv (resp : HttpResponse) (ys : List Record)
    (pr : List String) (h : fetchStep resp = .stop ys pr .done) :
    resp.status_code = 200 ∧ resultData resp.body = [] := by
  unfold fetchStep at h
  split at h
  · cases h
  · split at h
    · exact ⟨by omega, by assumption⟩
    · split at h
      · cases h
      · cases h

theorem fetchStep_next_not_empty (resp : HttpResponse) (ys : List Record)
    (h : fetchStep resp = .next ys) :
    ¬(resp.status_code = 200 ∧ resultData resp.body = []) := by
  rintro ⟨h200, he⟩
  rw [fetchStep_of_empty resp h200 he] at h
  cases h

/-! ## The fetch loop: unfolding lemmas -/

theorem fetchLoop_succ_stop (oracle : Int → HttpResponse) (limit : Int) (fuel : Nat)
    (offset : Int) (ys : List Record) (pr : List String) (st : LoopStatus)
    (h : fetchStep (oracle offset) = .stop ys pr st) :
    fetchLoop oracle limit (fuel + 1) offset = ⟨ys, [offset], pr, st⟩ := by
  simp [fetchLoop, h]

theorem fetchLoop_succ_next (oracle : Int → HttpResponse) (limit : Int) (fuel : Nat)
    (offset : Int) (ys : List Record) (h : fetchStep (oracle offset) = .next ys) :
    fetchLoop oracle limit (fuel + 1) offset =
      ⟨ys ++ (fetchLoop oracle limit fuel (offset + limit)).yielded,
       offset :: (fetchLoop oracle limit fuel (offset + limit)).offsets,
       (fetchLoop oracle limit fuel (offset + limit)).printed,
       (fetchLoop oracle limit fuel (offset + limit)).status⟩ := by
  simp [fetchLoop, h]

theorem fetchLoop_stop_of_non200 (oracle : Int → HttpResponse) (limit : Int) (fuel : Nat)
    (offset : Int) (h : (oracle offset).status_code ≠ 200) :
    fetchLoop oracle limit (fuel + 1) offset =
      ⟨[], [offset], [failMsg (oracle offset).status_code],
        .httpFail (oracle offset).status_code⟩ :=
  fetchLoop_succ_stop oracle limit fuel offset _ _ _ (fetchStep_of_non200 _ h)

theorem fetchLoop_done_of_empty (oracle : Int → HttpResponse) (limit : Int) (fuel : Nat)
    (offset : Int) (h200 : (oracle offset).status_code = 200)
    (he : resultData (oracle offset).body = []) :
    fetchLoop oracle limit (fuel + 1) offset = ⟨[], [offset], [], .done⟩ :=
  fetchLoop_succ_stop oracle limit fuel offset _ _ _ (fetchStep_of_empty _ h200 he)

/-! ## The offsets the fetch loop requests -/

theorem fetchLoop_offsets_get? (oracle : Int → HttpResponse) (limit : Int) :
    ∀ (fuel : Nat) (start : Int) (i : Nat),
      i < (fetchLoop oracle limit fuel start).offsets.length →
      (fetchLoop oracle limit fuel start).offsets.get? i = some (start + i * limit) := by
  intro fuel
  induction fuel with
  | zero =>
    intro start i h
    simp [fetchLoop] at h
  | succ n ih =>
    intro start i h
    cases hst : fetchStep (oracle start) with
    | stop ys pr st =>
      rw [fetchLoop_succ_stop oracle limit n start ys pr st hst] at h ⊢
      simp only [List.length_singleton] at h
      interval_cases i
      simp
    | next ys =>
      rw [fetchLoop_succ_next oracle limit n start ys hst] at h ⊢
      cases i with
      | zero => simp
      | succ j =>
        simp only [List.length_cons, Nat.add_lt_add_iff_right] at h
        rw [List.get?_cons_succ, ih (start + limit) j h]
        congr 1
        push_cast
        ring

theorem fetchLoop_offsets_get (oracle : Int → HttpResponse) (limit : Int) (fuel : Nat)
    (start : Int) (i : Nat) (h : i < (fetchLoop oracle limit fuel start).offsets.length) :
    (fetchLoop oracle limit fuel start).offsets.get ⟨i, h⟩ = start + i * limit := by
  have h1 := fetchLoop_offsets_get? oracle limit fuel start i h
  rw [List.get?_eq_get h] at h1
  exact Option.some.inj h1

theorem fetchLoop_offsets_chain (oracle : Int → HttpResponse) (limit : Int) (fuel : Nat)
    (start : Int) (hlim : 0 ≤ limit) :
    (fetchLoop oracle limit fuel start).offsets.Chain' (· ≤ ·) := by
  rw [List.chain'_iff_get]
  intro i hi
  rw [fetchLoop_offsets_get oracle limit fuel start i (by omega),
      fetchLoop_offsets_get oracle limit fuel start (i + 1) (by omega)]
  have : (i : Int) * limit ≤ ((i : Int) + 1) * limit := by nlinarith
  push_cast
  linarith

/-! ## What the fetch loop prints, and when it ends with status done -/

theorem fetchLoop_printed_eq (oracle : Int → HttpResponse) (limit : Int) :
    ∀ (fuel : Nat) (start : Int),
      (fetchLoop oracle limit fuel start).printed =
        printedFor (fetchLoop oracle limit fuel start).status := by
  intro fuel
  induction fuel with
  | zero => intro start; rfl
  | succ n ih =>
    intro start
    cases hst : fetchStep (oracle start) with
    | stop ys pr st =>
      rw [fetchLoop_succ_stop oracle limit n start ys pr st hst]
      exact fetchStep_stop_printed (oracle start) ys pr st hst
    | next ys =>
      rw [fetchLoop_succ_next oracle limit n start ys hst]
      exact ih (start + limit)

theorem fetchLoop_done_iff (oracle : Int → HttpResponse) (limit : Int) :
    ∀ (fuel : Nat) (start : Int),
      (fetchLoop oracle limit fuel start).status = .done ↔
        ∃ o ∈ (fetchLoop oracle limit fuel start).offsets,
          (oracle o).status_code = 200 ∧ resultData (oracle o).body = [] := by
  intro fuel
  induction fuel with
  | zero =>
    intro start
    simp [fetchLoop]
  | succ n ih =>
    intro start
    cases hst : fetchStep (oracle start) with
    | stop ys pr st =>
      rw [fetchLoop_succ_stop oracle limit n start ys pr st hst]
      simp only [List.mem_singleton]
      constructor
      · rintro rfl
        exact ⟨start, rfl, fetchStep_stop_done_inv (oracle start) ys pr hst⟩
      · rintro ⟨o, rfl, h200, he⟩
        rw [fetchStep_of_empty (oracle o) h200 he] at hst
        cases hst
        rfl
    | next ys =>
      rw [fetchLoop_succ_next oracle limit n start ys hst]
      simp only [List.mem_cons]
      rw [ih (start + limit)]
      constructor
      · rintro ⟨o, ho, h⟩
        exact ⟨o, Or.inr ho, h⟩
      · rintro ⟨o, ho | ho, h⟩
        · subst ho
          exact absurd h (fetchStep_next_not_empty (oracle o) ys hst)
        · exact ⟨o, ho, h⟩

/-! ## The item loop of line 85-86 -/

theorem processItems_append_fail (bad : SourceItem) (rest : List SourceItem)
    (hbad : toRecord? bad = none) :
    ∀ good : List SourceItem, (∀ it ∈ good, (toRecord? it).isSome) →
      processItems (good ++ bad :: rest) = (good.filterMap toRecord?, true) := by
  intro good
  induction good with
  | nil =>
    intro _
    simp [processItems, hbad]
  | cons it its ih =>
    intro hgood
    obtain ⟨r, hr⟩ := Option.isSome_iff_exists.mp (hgood it (List.mem_cons_self it its))
    have htail := ih fun x hx => hgood x (List.mem_cons_of_mem it hx)
    simp [processItems, hr, htail]

/-! ## The idempotent upsert (INSERT IGNORE) -/

theorem insertIgnore_of_mem (table : List Record) (r : Record)
    (h : r.nim ∈ table.map Record.nim) : insertIgnore table r = table := by
  simp [insertIgnore, h]

theorem insertIgnore_of_not_mem (table : List Record) (r : Record)
    (h : r.nim ∉ table.map Record.nim) : insertIgnore table r = table ++ [r] := by
  simp [insertIgnore, h]

theorem insertAll_cons (table : List Record) (r : Record) (rs : List Record) :
    insertAll table (r :: rs) = insertAll (insertIgnore table r) rs := rfl

theorem insertAll_of_mem (l : List Record) :
    ∀ table : List Record, (∀ r ∈ l, r.nim ∈ table.map Record.nim) →
      insertAll table l = table := by
  induction l with
  | nil => intro table _; rfl
  | cons r rs ih =>
    intro table h
    rw [insertAll_cons, insertIgnore_of_mem table r (h r (List.mem_cons_self r rs))]
    exact ih table fun x hx => h x (List.mem_cons_of_mem r hx)

theorem insertAll_fresh (l : List Record) :
    ∀ table : List Record, (l.map Record.nim).Nodup →
      (∀ r ∈ l, r.nim ∉ table.map Record.nim) →
      insertAll table l = table ++ l := by
  induction l with
  | nil => intro table _ _; simp [insertAll]
  | cons r rs ih =>
    intro table hnd hfresh
    have h1 : r.nim ∉ table.map Record.nim := hfresh r (List.mem_cons_self r rs)
    rw [insertAll_cons, insertIgnore_of_not_mem table r h1,
        ih (table ++ [r]) (List.nodup_cons.mp (by simpa using hnd)).2 ?fresh]
    · simp
    case fresh =>
      intro x hx
      simp only [List.map_append, List.map_cons, List.map_nil, List.mem_append,
        List.mem_singleton]
      rintro (hmem | heq)
      · exact hfresh x (List.mem_cons_of_mem r hx) hmem
      · have hr : r.nim ∉ rs.map Record.nim := (List.nodup_cons.mp (by simpa using hnd)).1
        exact hr (heq ▸ List.mem_map_of_mem Record.nim hx)

theorem insertAll_nil_of_nodup (l : List Record) (hnd : (l.map Record.nim).Nodup) :
    insertAll [] l = l := by
  simpa using insertAll_fresh l [] hnd (by simp)

/-! ## The sink bundle -/

theorem sinkProcessAll_ok (fails : Record → Bool) :
    ∀ (l table : List Record), (∀ r ∈ l, fails r = false) →
      sinkProcessAll fails table l = (insertAll table l, false) := by
  intro l
  induction l with
  | nil => intro table _; rfl
  | cons r rs ih =>
    intro table h
    have h1 : fails r = false := h r (List.mem_cons_self r rs)
    rw [sinkProcessAll, insertAll_cons]
    simp only [h1, Bool.false_eq_true, if_false]
    exact ih (insertIgnore table r) fun x hx => h x (List.mem_cons_of_mem r hx)

theorem sinkProcessAll_split (fails : Record → Bool) (bad : Record) (rest : List Record)
    (hbad : fails bad = true) :
    ∀ (good table : List Record), (∀ r ∈ good, fails r = false) →
      sinkProcessAll fails table (good ++ bad :: rest) = (insertAll table good, true) := by
  intro good
  induction good with
  | nil =>
    intro table _
    simp [sinkProcessAll, hbad, insertAll]
  | cons r rs ih =>
    intro table h
    have h1 : fails r = false := h r (List.mem_cons_self r rs)
    rw [List.cons_append, sinkProcessAll, insertAll_cons]
    simp only [h1, Bool.false_eq_true, if_false]
    exact ih (insertIgnore table r) fun x hx => h x (List.mem_cons_of_mem r hx)

theorem runSinkBundle_ok (fails : Record → Bool) (recs table₀ : List Record)
    (h : (sinkProcessAll fails table₀ recs).2 = false) :
    runSinkBundle fails recs table₀ =
      ⟨(sinkProcessAll fails table₀ recs).1,
       [.tunnelStart, .connOpen, .cursorClose, .connClose, .tunnelStop], false⟩ := by
  simp [runSinkBundle, h]

theorem runSinkBundle_aborted (fails : Record → Bool) (recs table₀ : List Record)
    (h : (sinkProcessAll fails table₀ recs).2 = true) :
    runSinkBundle fails recs table₀ =
      ⟨(sinkProcessAll fails table₀ recs).1, [.tunnelStart, .connOpen], true⟩ := by
  simp [runSinkBundle, h]

theorem runSinkBundle_nil (fails : Record → Bool) (table₀ : List Record) :
    runSinkBundle fails [] table₀ =
      ⟨table₀, [.tunnelStart, .connOpen, .cursorClose, .connClose, .tunnelStop], false⟩ := rfl

theorem runSinkBundle_events_ok (fails : Record → Bool) (recs table₀ : List Record)
    (h : (sinkProcessAll fails table₀ recs).2 = false) :
    (runSinkBundle fails recs table₀).events =
      [.tunnelStart, .connOpen, .cursorClose, .connClose, .tunnelStop] := by
  rw [runSinkBundle_ok fails recs table₀ h]

theorem runSinkBundle_events_fail (fails : Record → Bool) (recs table₀ : List Record)
    (h : (sinkProcessAll fails table₀ recs).2 = true) :
    (runSinkBundle fails recs table₀).events = [.tunnelStart, .connOpen] := by
  rw [runSinkBundle_aborted fails recs table₀ h]

theorem runSinkBundle_aborted_ok (fails : Record → Bool) (recs table₀ : List Record)
    (h : (sinkProcessAll fails table₀ recs).2 = false) :
    (runSinkBundle fails recs table₀).aborted = false := by
  rw [runSinkBundle_ok fails recs table₀ h]

theorem runSinkBundle_aborted_fail (fails : Record → Bool) (recs table₀ : List Record)
    (h : (sinkProcessAll fails table₀ recs).2 = true) :
    (runSinkBundle fails recs table₀).aborted = true := by
  rw [runSinkBundle_aborted fails recs table₀ h]

/-! ## The whole run -/

theorem runPipeline_exitCode_zero (oracle : Int → HttpResponse) (fails : Record → Bool)
    (limit : Int) (fuel : Nat) (start : Int)
    (h1 : (fetchLoop oracle limit fuel start).status ≠ .keyError)
    (h2 : (runSinkBundle fails (fetchLoop oracle limit fuel start).yielded []).aborted = false) :
    (runPipeline oracle fails limit fuel start).exitCode = 0 := by
  simp [runPipeline, h1, h2]

theorem runPipeline_exitCode_one_of_keyError (oracle : Int → HttpResponse)
    (fails : Record → Bool) (limit : Int) (fuel : Nat) (start : Int)
    (h : (fetchLoop oracle limit fuel start).status = .keyError) :
    (runPipeline oracle fails limit fuel start).exitCode = 1 := by
  simp [runPipeline, h]

/-! ## Claim C1 -/

/-- C1 counterexample: a run whose only fetch answers 500 exits with code 0,
refuting the claim that the run terminates with status FAILED and the error
propagates to the Driver (the code prints a message and breaks the loop). -/
theorem C1_counterexample :
    ¬((runPipeline (fun _ => ⟨500, ⟨none⟩⟩) (fun _ => false) 1 10 0).exitCode ≠ 0) :=
  fun h => h rfl

/-- C1 (amended): a non-200 fetch response makes the loop break at once — that
page yields no records (so no commit is attempted for it), the only trace of
the error is the printed message, the loop ends with the internal httpFail
marker carrying the status, and the run still exits 0: the error is swallowed,
not propagated. -/
theorem C1_non200_breaks_silently (oracle : Int → HttpResponse) (fails : Record → Bool)
    (limit : Int) (fuel : Nat) (start : Int)
    (h : (oracle start).status_code ≠ 200) :
    fetchLoop oracle limit (fuel + 1) start =
      ⟨[], [start], [failMsg (oracle start).status_code],
        .httpFail (oracle start).status_code⟩ ∧
    (runPipeline oracle fails limit (fuel + 1) start).exitCode = 0 ∧
    (runPipeline oracle fails limit (fuel + 1) start).table = [] := by
  have hf := fetchLoop_stop_of_non200 oracle limit fuel start h
  refine ⟨hf, ?_, ?_⟩
  · exact runPipeline_exitCode_zero _ _ _ _ _ (by simp [hf]) (by simp [hf, runSinkBundle_nil])
  · simp [runPipeline, hf, runSinkBundle_nil]

/-- C1 witness: the amended theorem applied to a concrete oracle answering 500. -/
theorem C1_witness :
    (runPipeline (fun _ => ⟨500, ⟨none⟩⟩) (fun _ => false) 1 3 0).exitCode = 0 :=
  (C1_non200_breaks_silently (fun _ => ⟨500, ⟨none⟩⟩) (fun _ => false) 1 2 0 (by decide)).2.1

/-! ## Claim C2 -/

/-- C2 counterexample: with a page of two records whose second insert fails,
the bundle aborts yet the destination table is not empty (the first record was
already committed), refuting all-or-nothing atomicity per page. -/
theorem C2_counterexample :
    (runSinkBundle (fun r => r.nim == "A2") [⟨"A1", "X"⟩, ⟨"A2", "Y"⟩] []).aborted = true ∧
    ¬((runSinkBundle (fun r => r.nim == "A2") [⟨"A1", "X"⟩, ⟨"A2", "Y"⟩] []).table = []) := by
  decide

/-- C2 (amended): the commit boundary is one record, not one page —
`InsertToMySQL.process` calls `conn.commit()` after every single insert, so
when an insert fails mid-page every record before the failing one is already
durably visible, nothing from the failing record on is committed, and the
bundle aborts (without reaching `finish_bundle`). -/
theorem C2_commit_is_per_record (fails : Record → Bool) (table₀ rest : List Record)
    (bad : Record) (hbad : fails bad = true) :
    ∀ good : List Record, (∀ r ∈ good, fails r = false) →
      runSinkBundle fails (good ++ bad :: rest) table₀ =
        ⟨insertAll table₀ good, [.tunnelStart, .connOpen], true⟩ := by
  intro good hgood
  have h := sinkProcessAll_split fails bad rest hbad good table₀ hgood
  rw [runSinkBundle_aborted fails (good ++ bad :: rest) table₀ (by rw [h]), h]

/-- C2 witness: the amended theorem at a three-record page whose middle insert
fails: exactly the first record is committed. -/
theorem C2_witness :
    runSinkBundle (fun r => r.nim == "A2") ([⟨"A1", "X"⟩] ++ ⟨"A2", "Y"⟩ :: [⟨"A3", "Z"⟩]) [] =
      ⟨insertAll [] [⟨"A1", "X"⟩], [.tunnelStart, .connOpen], true⟩ :=
  C2_commit_is_per_record (fun r => r.nim == "A2") [] [⟨"A3", "Z"⟩] ⟨"A2", "Y"⟩ (by decide)
    [⟨"A1", "X"⟩] (by decide)

/-! ## Claim C3 -/

/-- C3: the insert is an idempotent upsert. For any sequence of pages whose N
records carry pairwise distinct natural keys, a faultless run commits exactly
those N records (N distinct keys, no duplicates) and aborts nothing, and
re-running any already-committed records against the resulting table is a
no-op that again completes without error. -/
theorem C3_pipeline_idempotent (pages : List (List Record))
    (hnodup : (pages.flatten.map Record.nim).Nodup) :
    (runSinkBundle (fun _ => false) pages.flatten []).aborted = false ∧
    (runSinkBundle (fun _ => false) pages.flatten []).table = pages.flatten ∧
    ((runSinkBundle (fun _ => false) pages.flatten []).table.map Record.nim).Nodup ∧
    (runSinkBundle (fun _ => false) pages.flatten []).table.length = pages.flatten.length ∧
    ∀ replay : List Record, (∀ r ∈ replay, r ∈ pages.flatten) →
      runSinkBundle (fun _ => false) replay
          (runSinkBundle (fun _ => false) pages.flatten []).table =
        ⟨(runSinkBundle (fun _ => false) pages.flatten []).table,
         [.tunnelStart, .connOpen, .cursorClose, .connClose, .tunnelStop], false⟩ := by
  have hok : ∀ l t : List Record, sinkProcessAll (fun _ => false) t l = (insertAll t l, false) :=
    fun l t => sinkProcessAll_ok (fun _ => false) l t (fun _ _ => rfl)
  have h1 := runSinkBundle_ok (fun _ => false) pages.flatten [] (by rw [hok])
  simp only [hok] at h1
  rw [insertAll_nil_of_nodup pages.flatten hnodup] at h1
  refine ⟨by simp only [h1], by simp only [h1], by simp only [h1]; exact hnodup,
    by simp only [h1], ?_⟩
  intro replay hrep
  simp only [h1]
  rw [runSinkBundle_ok (fun _ => false) replay pages.flatten (by rw [hok])]
  simp only [hok]
  rw [insertAll_of_mem replay pages.flatten
    (fun r hr => List.mem_map_of_mem Record.nim (hrep r hr))]

/-- C3 witness: two one-record pages with distinct keys, then a replay of the
first page against the committed table: the table is unchanged and no error
occurs. -/
theorem C3_witness :
    (runSinkBundle (fun _ => false) [[⟨"A1", "X"⟩], [⟨"A2", "Y"⟩]].flatten []).table =
      [[⟨"A1", "X"⟩], [⟨"A2", "Y"⟩]].flatten ∧
    runSinkBundle (fun _ => false) [⟨"A1", "X"⟩]
        (runSinkBundle (fun _ => false) [[⟨"A1", "X"⟩], [⟨"A2", "Y"⟩]].flatten []).table =
      ⟨(runSinkBundle (fun _ => false) [[⟨"A1", "X"⟩], [⟨"A2", "Y"⟩]].flatten []).table,
       [.tunnelStart, .connOpen, .cursorClose, .connClose, .tunnelStop], false⟩ := by
  have h := C3_pipeline_idempotent [[⟨"A1", "X"⟩], [⟨"A2", "Y"⟩]] (by decide)
  exact ⟨h.2.1, h.2.2.2.2 [⟨"A1", "X"⟩] (by decide)⟩

/-! ## Claim C4 -/

/-- C4 counterexample: when the second insert of a bundle fails, the bundle
aborts and the connection is never closed (close count 0, not 1), refuting
release-on-every-exit-path. -/
theorem C4_counterexample :
    (runSinkBundle (fun r => r.nim == "B2") [⟨"B1", "X"⟩, ⟨"B2", "Y"⟩] []).aborted = true ∧
    ¬((runSinkBundle (fun r => r.nim == "B2") [⟨"B1", "X"⟩, ⟨"B2", "Y"⟩] []).events.count
        SinkEvent.connClose = 1) := by
  decide

/-- C4 (amended): the lease is released exactly once on the normal exit path
only — when every insert of the bundle succeeds, `finish_bundle` closes the
connection and stops the tunnel exactly once each; when any insert raises, the
bundle aborts and neither release happens (the DoFn has no try/finally and
Beam does not run `finish_bundle` for a failed bundle). -/
theorem C4_close_only_on_success (fails : Record → Bool) (recs table₀ : List Record) :
    (runSinkBundle fails recs table₀).events.count SinkEvent.tunnelStart = 1 ∧
    (runSinkBundle fails recs table₀).events.count SinkEvent.connClose =
      (if (runSinkBundle fails recs table₀).aborted then 0 else 1) ∧
    (runSinkBundle fails recs table₀).events.count SinkEvent.tunnelStop =
      (if (runSinkBundle fails recs table₀).aborted then 0 else 1) := by
  rcases h : (sinkProcessAll fails table₀ recs).2 with _ | _
  · rw [runSinkBundle_events_ok fails recs table₀ h, runSinkBundle_aborted_ok fails recs table₀ h]
    decide
  · rw [runSinkBundle_events_fail fails recs table₀ h,
      runSinkBundle_aborted_fail fails recs table₀ h]
    decide

/-! ## Claim C5 -/

/-- C5: the offsets the fetch loop requests form exactly the arithmetic
sequence start, start + limit, start + 2·limit, …, and with a nonnegative
limit the requested offsets never decrease (the cursor is never rewound
within a run). -/
theorem C5_cursor_arithmetic (oracle : Int → HttpResponse) (limit : Int) (fuel : Nat)
    (start : Int) (hlim : 0 ≤ limit) :
    (∀ i : Nat, i < (fetchLoop oracle limit fuel start).offsets.length →
      (fetchLoop oracle limit fuel start).offsets.get? i = some (start + i * limit)) ∧
    (fetchLoop oracle limit fuel start).offsets.Chain' (· ≤ ·) :=
  ⟨fun i h => fetchLoop_offsets_get? oracle limit fuel start i h,
   fetchLoop_offsets_chain oracle limit fuel start hlim⟩

/-- C5 witness: a concrete oracle serving two nonempty pages then an empty
one, with limit 2: the second requested offset is 0 + 1·2 and the requested
offsets are nondecreasing. -/
theorem C5_witness :
    (fetchLoop
        (fun o => if o < 4 then ⟨200, ⟨some ⟨some [⟨some "N", some "P"⟩]⟩⟩⟩
          else ⟨200, ⟨some ⟨some []⟩⟩⟩) 2 10 0).offsets.get? 1 =
      some (0 + (1 : Nat) * 2) ∧
    (fetchLoop
        (fun o => if o < 4 then ⟨200, ⟨some ⟨some [⟨some "N", some "P"⟩]⟩⟩⟩
          else ⟨200, ⟨some ⟨some []⟩⟩⟩) 2 10 0).offsets.Chain' (· ≤ ·) :=
  ⟨(C5_cursor_arithmetic _ 2 10 0 (by decide)).1 1 (by decide),
   (C5_cursor_arithmetic _ 2 10 0 (by decide)).2⟩

/-! ## Claim C6 -/

/-- C6: a 200 response with an empty record list stops the loop at once — that
fetch is the only one performed from there, nothing is yielded, the loop ends
with status done and the run exits 0 — and an empty-list 200 response at some
requested offset is exactly when the loop ends with done (no page cap or
total-count check ends it). -/
theorem C6_empty_page_terminates (oracle : Int → HttpResponse) (fails : Record → Bool)
    (limit : Int) (fuel : Nat) (start : Int)
    (h200 : (oracle start).status_code = 200)
    (hempty : resultData (oracle start).body = []) :
    fetchLoop oracle limit (fuel + 1) start = ⟨[], [start], [], .done⟩ ∧
    (runPipeline oracle fails limit (fuel + 1) start).exitCode = 0 ∧
    ∀ (fuel' : Nat) (start' : Int),
      ((fetchLoop oracle limit fuel' start').status = .done ↔
        ∃ o ∈ (fetchLoop oracle limit fuel' start').offsets,
          (oracle o).status_code = 200 ∧ resultData (oracle o).body = []) := by
  have hf := fetchLoop_done_of_empty oracle limit fuel start h200 hempty
  exact ⟨hf,
    runPipeline_exitCode_zero _ _ _ _ _ (by simp [hf]) (by simp [hf, runSinkBundle_nil]),
    fun fuel' start' => fetchLoop_done_iff oracle limit fuel' start'⟩

/-- C6 witness: the theorem applied to an oracle that always answers 200 with
an empty list. -/
theorem C6_witness :
    (runPipeline (fun _ => ⟨200, ⟨some ⟨some []⟩⟩⟩) (fun _ => false) 7 4 0).exitCode = 0 :=
  (C6_empty_page_terminates (fun _ => ⟨200, ⟨some ⟨some []⟩⟩⟩) (fun _ => false) 7 3 0
    rfl rfl).2.1

/-! ## Claim C7 -/

/-- C7: whenever the lease-release path runs at all, the tunnel stop is
strictly preceded by the connection close in the event trace: the tunnel is
never torn down while the handle using it is still open. -/
theorem C7_conn_closed_before_tunnel_stop (fails : Record → Bool)
    (recs table₀ : List Record) :
    SinkEvent.tunnelStop ∈ (runSinkBundle fails recs table₀).events →
      SinkEvent.connClose ∈ (runSinkBundle fails recs table₀).events ∧
      (runSinkBundle fails recs table₀).events.indexOf SinkEvent.connClose <
        (runSinkBundle fails recs table₀).events.indexOf SinkEvent.tunnelStop := by
  intro hmem
  rcases h : (sinkProcessAll fails table₀ recs).2 with _ | _
  · rw [runSinkBundle_events_ok fails recs table₀ h]
    exact ⟨by decide, by decide⟩
  · rw [runSinkBundle_events_fail fails recs table₀ h] at hmem
    exact absurd hmem (by decide)

/-- C7 witness: the theorem on a successful empty bundle, whose trace does
stop the tunnel. -/
theorem C7_witness :
    SinkEvent.connClose ∈ (runSinkBundle (fun _ => false) [] []).events ∧
    (runSinkBundle (fun _ => false) [] []).events.indexOf SinkEvent.connClose <
      (runSinkBundle (fun _ => false) [] []).events.indexOf SinkEvent.tunnelStop :=
  C7_conn_closed_before_tunnel_stop (fun _ => false) [] [] (by decide)

/-! ## Claim C8 -/

/-- C8 counterexample: a run whose only fetch answers 503 — per the spec a
FAILED run — exits with code 0, not non-zero, refuting the claimed exit
behavior (and nothing resembling a cursor is printed, only the static failure
message). -/
theorem C8_counterexample :
    ¬((runPipeline (fun _ => ⟨503, ⟨none⟩⟩) (fun _ => false) 1 5 0).exitCode ≠ 0) :=
  fun h => h rfl

/-- C8 (amended): the process exits 0 both when the run ends in done and when
it ends on a non-200 fetch (the would-be FAILED case); it exits non-zero only
when an exception escapes (a missing key in the fetch stage, or a database
error aborting the sink bundle); and the only line ever printed is the static
non-200 failure message — the last committed cursor is never printed. -/
theorem C8_exit_and_printing (oracle : Int → HttpResponse) (fails : Record → Bool)
    (limit : Int) (fuel : Nat) (start : Int) :
    ((fetchLoop oracle limit fuel start).status = .done →
      (runSinkBundle fails (fetchLoop oracle limit fuel start).yielded []).aborted = false →
      (runPipeline oracle fails limit fuel start).exitCode = 0) ∧
    (∀ c : Nat, (fetchLoop oracle limit fuel start).status = .httpFail c →
      (runSinkBundle fails (fetchLoop oracle limit fuel start).yielded []).aborted = false →
      (runPipeline oracle fails limit fuel start).exitCode = 0 ∧
      (runPipeline oracle fails limit fuel start).printed = [failMsg c]) ∧
    ((fetchLoop oracle limit fuel start).status = .keyError →
      (runPipeline oracle fails limit fuel start).exitCode = 1) ∧
    (runPipeline oracle fails limit fuel start).printed =
      printedFor (fetchLoop oracle limit fuel start).status := by
  have hpr : (runPipeline oracle fails limit fuel start).printed =
      (fetchLoop oracle limit fuel start).printed := rfl
  refine ⟨?_, ?_, runPipeline_exitCode_one_of_keyError oracle fails limit fuel start, ?_⟩
  · intro hd hs
    exact runPipeline_exitCode_zero _ _ _ _ _ (by simp [hd]) hs
  · intro c hc hs
    refine ⟨runPipeline_exitCode_zero _ _ _ _ _ (by simp [hc]) hs, ?_⟩
    rw [hpr, fetchLoop_printed_eq oracle limit fuel start, hc]
    rfl
  · rw [hpr, fetchLoop_printed_eq oracle limit fuel start]

/-- C8 witness: the amended theorem at a 404-answering oracle: exit code 0 and
only the failure message printed. -/
theorem C8_witness :
    (runPipeline (fun _ => ⟨404, ⟨none⟩⟩) (fun _ => false) 1 7 0).exitCode = 0 ∧
    (runPipeline (fun _ => ⟨404, ⟨none⟩⟩) (fun _ => false) 1 7 0).printed = [failMsg 404] :=
  (C8_exit_and_printing (fun _ => ⟨404, ⟨none⟩⟩) (fun _ => false) 1 7 0).2.1 404
    (by decide) (by decide)

/-! ## Claim C9 -/

/-- C9 counterexample: a 200 response whose body lacks the expected
data-within-data shape ends the loop with status done — the normal end of
stream — refuting the claim that it is treated as a fatal upstream error. -/
theorem C9_counterexample :
    ¬((fetchLoop (fun _ => ⟨200, ⟨none⟩⟩) 6 4 0).status ≠ LoopStatus.done) :=
  fun h => h rfl

/-- C9 (amended): a 200 response whose body is missing the top-level data
field, or whose inner data list is missing, extracts to the empty record list
and is treated exactly like a normal end of stream: the loop stops with done
and the run exits 0; no error is raised. -/
theorem C9_malformed_is_end_of_stream (oracle : Int → HttpResponse) (fails : Record → Bool)
    (limit : Int) (fuel : Nat) (start : Int)
    (h200 : (oracle start).status_code = 200)
    (hmal : (oracle start).body.dataField = none ∨
      ∃ inner : GraphQLInner,
        (oracle start).body.dataField = some inner ∧ inner.dataList = none) :
    fetchLoop oracle limit (fuel + 1) start = ⟨[], [start], [], .done⟩ ∧
    (runPipeline oracle fails limit (fuel + 1) start).exitCode = 0 := by
  have he : resultData (oracle start).body = [] := by
    rcases hmal with h | ⟨inner, h1, h2⟩
    · simp [resultData, h]
    · simp [resultData, h1, h2]
  have hf := fetchLoop_done_of_empty oracle limit fuel start h200 he
  exact ⟨hf,
    runPipeline_exitCode_zero _ _ _ _ _ (by simp [hf]) (by simp [hf, runSinkBundle_nil])⟩

/-- C9 witness: the amended theorem on a body whose inner data list is
missing. -/
theorem C9_witness :
    fetchLoop (fun _ => ⟨200, ⟨some ⟨none⟩⟩⟩) 5 3 0 = ⟨[], [0], [], .done⟩ ∧
    (runPipeline (fun _ => ⟨200, ⟨some ⟨none⟩⟩⟩) (fun _ => false) 5 3 0).exitCode = 0 :=
  C9_malformed_is_end_of_stream (fun _ => ⟨200, ⟨some ⟨none⟩⟩⟩) (fun _ => false) 5 2 0 rfl
    (Or.inr ⟨⟨none⟩, rfl, rfl⟩)

/-! ## Claim C10 -/

/-- C10: on a 200 page whose item list is some well-formed items followed by
an item missing a required key, the fetch stage yields exactly the records of
the preceding well-formed items (in order), then raises at the offending item
rather than skipping it: the loop ends with the KeyError marker, no further
fetch happens, and the exception makes the process exit non-zero. -/
theorem C10_keyerror_after_yields (oracle : Int → HttpResponse) (fails : Record → Bool)
    (limit : Int) (fuel : Nat) (start : Int)
    (good : List SourceItem) (bad : SourceItem) (rest : List SourceItem)
    (h200 : (oracle start).status_code = 200)
    (hitems : resultData (oracle start).body = good ++ bad :: rest)
    (hgood : ∀ it ∈ good, (toRecord? it).isSome)
    (hbad : toRecord? bad = none) :
    fetchLoop oracle limit (fuel + 1) start =
      ⟨good.filterMap toRecord?, [start], [], .keyError⟩ ∧
    (runPipeline oracle fails limit (fuel + 1) start).exitCode = 1 := by
  have hpi := processItems_append_fail bad rest hbad good hgood
  have hne : ¬(good ++ bad :: rest = []) := by simp
  have hstep : fetchStep (oracle start) = .stop (good.filterMap toRecord?) [] .keyError := by
    simp [fetchStep, h200, hitems, hpi, hne]
  have hf := fetchLoop_succ_stop oracle limit fuel start _ _ _ hstep
  exact ⟨hf, runPipeline_exitCode_one_of_keyError _ _ _ _ _ (by simp [hf])⟩

/-- C10 witness: a page with one well-formed item followed by an item missing
the nim key: exactly the first record is yielded, then the run fails. -/
theorem C10_witness :
    fetchLoop (fun _ => ⟨200, ⟨some ⟨some [⟨some "A", some "P"⟩, ⟨none, some "Q"⟩]⟩⟩⟩) 1 3 0 =
      ⟨[⟨some "A", some "P"⟩].filterMap toRecord?, [0], [], .keyError⟩ ∧
    (runPipeline (fun _ => ⟨200, ⟨some ⟨some [⟨some "A", some "P"⟩, ⟨none, some "Q"⟩]⟩⟩⟩)
        (fun _ => false) 1 3 0).exitCode = 1 :=
  C10_keyerror_after_yields (fun _ => ⟨200, ⟨some ⟨some [⟨some "A", some "P"⟩, ⟨none, some "Q"⟩]⟩⟩⟩)
    (fun _ => false) 1 2 0 [⟨some "A", some "P"⟩] ⟨none, some "Q"⟩ [] rfl rfl (by decide) rfl

end DataflowTemplate
